import Mathlib

/-!
A shallow embedding of the countdown-synchronization composable
`useCountdownSync` (source file `part_000`).  JavaScript numbers that hold
epoch timestamps and millisecond durations are modelled as `Int` (the code
only ever produces integer millisecond values; `NaN` has no representative,
so the `Number.isNaN` guards are vacuous in the model).  A nullable ref
(`ref(null)` holding a number) is `Option Int`; JavaScript truthiness of
such a value (`!x`) is `truthy` below (`null`/`undefined`/`0` are falsy).
Every call of `Date.now()` is modelled by an explicit `Int` parameter; the
handful of `Date.now()` reads inside one synchronous body are modelled by a
single reading, since no awaited suspension separates them.
Error-message strings are modelled by the inductive `ErrMsg`, one
constructor per assignment site; JavaScript string concatenation
(`errorMessage.value += ...`) is modelled by wrapping constructors.
-/

namespace CountdownSync

/-- `MS_PER_SECOND = 1000` from the source constants. -/
def MS_PER_SECOND : Int := 1000

/-- `MAX_TIMESTAMP_DEVIATION = 300_000` (5 minutes, ms). -/
def MAX_TIMESTAMP_DEVIATION : Int := 300000

/-- `MAX_CACHE_AGE = 24 * 60 * 60 * MS_PER_SECOND` (24 hours, ms). -/
def MAX_CACHE_AGE : Int := 24 * 60 * 60 * MS_PER_SECOND

/-- `MAX_FUTURE_TIME = 365 * 24 * 60 * 60 * MS_PER_SECOND` (1 year, ms). -/
def MAX_FUTURE_TIME : Int := 365 * 24 * 60 * 60 * MS_PER_SECOND

/-- `SECOND_TIMESTAMP_THRESHOLD = 1e12`, the unit-detection threshold. -/
def SECOND_TIMESTAMP_THRESHOLD : Int := 1000000000000

/-- `RETRY_DELAY = [1000, 3000, 5000]`. -/
def RETRY_DELAY : List Int := [1000, 3000, 5000]

/-- `MAX_RETRIES = 3`. -/
def MAX_RETRIES : Nat := 3

/-- `REQUEST_DELAY_TOLERANCE = 2000` (2 seconds, ms). -/
def REQUEST_DELAY_TOLERANCE : Int := 2000

/-- JavaScript truthiness of a nullable number: `null`, `undefined` and `0`
are falsy, every other (integer) value is truthy. -/
def truthy : Option Int → Bool
  | none => false
  | some v => v != 0

/-- The error messages the composable can assign to `errorMessage`, one
constructor per assignment site in the source.  The two `+=` concatenation
sites are the wrapping constructors `withCacheDataInvalid`
(`'，且缓存数据无效'`) and `withCacheAlsoInvalid` (`'，但缓存也无效'`);
`nullText` stands for a JavaScript `null` coerced into a concatenation. -/
inductive ErrMsg where
  | nullText
  | invalidTimestamp
  | endTimeExpired (secondsOver : Nat)
  | endTimeTooFar
  | syncCancelled
  | willRetry (isTimeout : Bool) (delayMs : Int) (prevRetryCount : Nat)
  | retriesExhausted
  | timeAnomalyCorrected
  | withCacheDataInvalid (base : ErrMsg)
  | withCacheAlsoInvalid (base : ErrMsg)
deriving Repr, DecidableEq

/-- `errorMessage.value += suffix`: the current message (a JavaScript `null`
becomes the text `"null"`) wrapped by the given concatenation. -/
def appendMsg (wrap : ErrMsg → ErrMsg) : Option ErrMsg → Option ErrMsg
  | none => some (wrap ErrMsg.nullText)
  | some m => some (wrap m)

/-- The persisted snapshot written to `useStorage(STORAGE_KEY, null)`:
raw (pre-normalization) `serverEndTime`/`serverNow`, the `clientNow`
reference, and the persistence time `syncedAt`. -/
structure CachedSnapshot where
  serverEndTime : Option Int
  serverNow : Option Int
  clientNow : Option Int
  syncedAt : Int
deriving Repr, DecidableEq

/-- The reactive state of one `useCountdownSync` instance: every `ref` of
the source that the modelled operations read or write. -/
structure St where
  serverEndTime : Option Int := none
  serverNow : Option Int := none
  clientNow : Option Int := none
  requestSendTime : Option Int := none
  isTimestampValid : Bool := true
  remaining : Int := 0
  isExpired : Bool := false
  syncing : Bool := false
  errorMessage : Option ErrMsg := none
  retryCount : Nat := 0
  isSyncDisabled : Bool := false
  storage : Option CachedSnapshot := none
deriving Repr, DecidableEq

/-- The initial state of a freshly constructed instance. -/
def St.init : St := {}

/-- `normalizeTimestamp`: a value below `1e12` is treated as seconds and
multiplied by 1000, otherwise it is already milliseconds. -/
def normalizeTimestamp (timestamp : Int) : Int :=
  if timestamp < SECOND_TIMESTAMP_THRESHOLD then timestamp * MS_PER_SECOND
  else timestamp

/-- `validateTimestamps(endTime, nowTime)`.  `now` is the `Date.now()`
reading taken inside the call (used for the request-delay compensation).
Returns the boolean result of the source function together with the updated
state: on the three rejection branches only `errorMessage` is written; on
acceptance `serverEndTime`/`serverNow` are installed, with `serverNow`
shifted by the request delay when that delay exceeds
`REQUEST_DELAY_TOLERANCE` and a request-send time was recorded. -/
def validateTimestamps (endTime nowTime : Option Int) (now : Int) (st : St) :
    Bool × St :=
  if !truthy endTime || !truthy nowTime
      || endTime.getD 0 ≤ 0 || nowTime.getD 0 ≤ 0 then
    (false, { st with errorMessage := some ErrMsg.invalidTimestamp })
  else
    let normalizedEnd := normalizeTimestamp (endTime.getD 0)
    let normalizedNow := normalizeTimestamp (nowTime.getD 0)
    let timeDiff := normalizedEnd - normalizedNow
    if timeDiff < -MAX_TIMESTAMP_DEVIATION then
      let secondsOver := (timeDiff.fdiv MS_PER_SECOND).natAbs
      (false, { st with errorMessage := some (ErrMsg.endTimeExpired secondsOver) })
    else if timeDiff > MAX_FUTURE_TIME then
      (false, { st with errorMessage := some ErrMsg.endTimeTooFar })
    else
      if truthy st.requestSendTime then
        let requestDelay := now - st.requestSendTime.getD 0
        if requestDelay > REQUEST_DELAY_TOLERANCE then
          (true, { st with
            serverNow := some (normalizedNow + requestDelay),
            serverEndTime := some normalizedEnd })
        else
          (true, { st with
            serverNow := some normalizedNow,
            serverEndTime := some normalizedEnd })
      else
        (true, { st with
          serverEndTime := some normalizedEnd,
          serverNow := some normalizedNow })

/-- `updateRemaining` (the display tick).  `now` is the `Date.now()` reading
of this evaluation.  With an invalid or incomplete `SyncState` the display
is forced to `0`/expired; otherwise the candidate remaining time is
projected from locally elapsed time, and the displayed value is clamped by
`Math.max(0, Math.min(remaining.value || newRemaining, newRemaining))` —
note the JavaScript `||`: the previous displayed value is the ceiling
exactly when it is nonzero. -/
def updateRemaining (now : Int) (st : St) : St :=
  if !st.isTimestampValid || !truthy st.serverEndTime
      || !truthy st.serverNow || !truthy st.clientNow then
    { st with remaining := 0, isExpired := true }
  else
    let clientTimeElapsed := now - st.clientNow.getD 0
    let currentServerTime := st.serverNow.getD 0 + clientTimeElapsed
    let newRemaining := st.serverEndTime.getD 0 - currentServerTime
    let ceiling := if st.remaining = 0 then newRemaining else st.remaining
    let r := max 0 (min ceiling newRemaining)
    { st with remaining := r, isExpired := decide (r ≤ 0) }

/-- The acceptance predicate of `useCachedData`: the stored snapshot exists,
its three timestamp fields are truthy, it is younger than `MAX_CACHE_AGE`,
and the cached deadline projected against cache-elapsed time is not expired
beyond `MAX_TIMESTAMP_DEVIATION`. -/
def cacheUsable (storage : Option CachedSnapshot) (now : Int) : Bool :=
  match storage with
  | none => false
  | some cached =>
    if !truthy cached.serverEndTime || !truthy cached.serverNow
        || !truthy cached.clientNow then false
    else
      let cacheAge := now - cached.syncedAt
      if cacheAge ≥ MAX_CACHE_AGE then false
      else
        let cachedServerNow := normalizeTimestamp (cached.serverNow.getD 0)
        let cachedServerEnd :=
          normalizeTimestamp (cached.serverEndTime.getD 0)
        let cacheTimeElapsed := now - cached.clientNow.getD 0
        let currentCachedServerTime := cachedServerNow + cacheTimeElapsed
        decide
          (-MAX_TIMESTAMP_DEVIATION ≤ cachedServerEnd - currentCachedServerTime)

/-- `useCachedData`: when `cacheUsable` holds, install the normalized
cached pair and reset `clientNow` to the current local time; otherwise
leave the state unchanged and report `false`. -/
def useCachedData (now : Int) (st : St) : Bool × St :=
  match st.storage with
  | none => (false, st)
  | some cached =>
    if cacheUsable (some cached) now then
      (true, { st with
        serverEndTime := some (normalizeTimestamp (cached.serverEndTime.getD 0)),
        serverNow := some (normalizeTimestamp (cached.serverNow.getD 0)),
        clientNow := some now })
    else (false, st)

/-- The result of one transport call (`fetchSyncData`): either a parsed
response, carrying the end/now pair already extracted by the
`response.e || response.serverEndTime` aliasing, or a thrown error,
classified the way `syncWithRetry`'s catch block classifies it. -/
inductive Outcome where
  | ok (e s : Option Int)
  | err (isAbort : Bool) (isTimeout : Bool)
deriving Repr, DecidableEq

/-- One transport attempt: its outcome, the `Date.now()` reading at send
time (stored into `requestSendTime`), and the `Date.now()` reading when the
outcome is processed (validation / `clientNow` stamping / cache fallback). -/
structure Attempt where
  outcome : Outcome
  tSend : Int
  tRecv : Int
deriving Repr, DecidableEq

/-- `syncWithRetry`, driven by the list of transport outcomes it consumes
(one per attempt; the recursive retry consumes the tail).  Returns the
final state together with the number of transport attempts made.  Each
terminal branch ends with the `finally` cleanup `requestSendTime = null`.
An empty outcome list means no transport result is available and is never
reached by the theorems below. -/
def syncWithRetry : List Attempt → St → St × Nat
  | [], st => (st, 0)
  | a :: rest, st =>
    let st0 := { st with requestSendTime := some a.tSend }
    match a.outcome with
    | Outcome.ok e s =>
      let st1 := { st0 with retryCount := 0 }
      let v := validateTimestamps e s a.tRecv st1
      if v.1 then
        let st3 := { v.2 with
          clientNow := some a.tRecv,
          storage := some ⟨e, s, some a.tRecv, a.tRecv⟩ }
        ({ st3 with requestSendTime := none }, 1)
      else
        let c := useCachedData a.tRecv v.2
        let msg := appendMsg ErrMsg.withCacheDataInvalid c.2.errorMessage
        let st4 := if c.1 then c.2 else { c.2 with errorMessage := msg }
        ({ st4 with requestSendTime := none }, 1)
    | Outcome.err isAbort isTimeout =>
      if isAbort then
        ({ st0 with errorMessage := some ErrMsg.syncCancelled,
                    requestSendTime := none }, 1)
      else if st0.retryCount < MAX_RETRIES then
        let fallbackDelay := RETRY_DELAY.getD (RETRY_DELAY.length - 1) 0
        let delay := RETRY_DELAY.getD st0.retryCount fallbackDelay
        let msg := some (ErrMsg.willRetry isTimeout delay st0.retryCount)
        let st1 := { st0 with errorMessage := msg,
                              retryCount := st0.retryCount + 1 }
        let r := syncWithRetry rest st1
        ({ r.1 with requestSendTime := none }, r.2 + 1)
      else
        let st1 := { st0 with errorMessage := some ErrMsg.retriesExhausted }
        let c := useCachedData a.tRecv st1
        let msg := appendMsg ErrMsg.withCacheAlsoInvalid c.2.errorMessage
        let st2 :=
          if c.1 then c.2
          else { c.2 with errorMessage := msg, isTimestampValid := false }
        ({ st2 with retryCount := 0, requestSendTime := none }, 1)

/-- `syncNow`: the public sync entry point.  When a sync is already in
flight or in cooldown the call is a no-op.  Otherwise it records
`preSyncRemaining`, runs `syncWithRetry`, clamps `remaining` back to
`preSyncRemaining` when the sync left it larger (and `preSyncRemaining`
was positive), and in the `finally` clears `syncing` and runs one
`updateRemaining` tick (at local time `tickNow`).  The deferred
`setTimeout` that re-enables syncing after one second is outside this
atomic model. -/
def syncNow (attempts : List Attempt) (tickNow : Int) (st : St) : St :=
  if st.syncing || st.isSyncDisabled then st
  else
    let st1 := { st with isSyncDisabled := true, syncing := true,
                         errorMessage := none }
    let preSyncRemaining := st1.remaining
    let st2 := (syncWithRetry attempts st1).1
    let st3 :=
      if preSyncRemaining < st2.remaining ∧ 0 < preSyncRemaining then
        { st2 with remaining := preSyncRemaining }
      else st2
    updateRemaining tickNow { st3 with syncing := false }

/-- The `watch(serverEndTime, ...)` callback: on a replacement of
`serverEndTime` from `oldVal` to `newVal` (the state already holds
`newVal`), a truthy-to-truthy jump of more than two seconds is reverted to
`oldVal` with the anomaly notice; otherwise nothing happens. -/
def serverEndTimeWatch (newVal oldVal : Option Int) (st : St) : St :=
  if truthy oldVal && truthy newVal
      && (oldVal.getD 0 + MS_PER_SECOND * 2 < newVal.getD 0) then
    { st with serverEndTime := oldVal,
              errorMessage := some ErrMsg.timeAnomalyCorrected }
  else st

/-- The guard of `updateRemaining` as a single predicate: the tick computes
a projection only when the timestamps are marked valid and all three
`SyncState` fields are truthy. -/
def stateReady (st : St) : Bool :=
  st.isTimestampValid && truthy st.serverEndTime && truthy st.serverNow
    && truthy st.clientNow

/-- `newRemaining` of one tick evaluation at local time `now`:
`serverEndTime - (serverNow + (now - clientNow))`. -/
def candidate (now : Int) (st : St) : Int :=
  st.serverEndTime.getD 0 - (st.serverNow.getD 0 + (now - st.clientNow.getD 0))

/-- A tick changes only `remaining` and `isExpired`. -/
theorem updateRemaining_fields (now : Int) (st : St) :
    (updateRemaining now st).serverEndTime = st.serverEndTime ∧
    (updateRemaining now st).serverNow = st.serverNow ∧
    (updateRemaining now st).clientNow = st.clientNow ∧
    (updateRemaining now st).isTimestampValid = st.isTimestampValid := by
  unfold updateRemaining
  split <;> simp

/-- A tick leaves `stateReady` unchanged. -/
theorem updateRemaining_ready (now : Int) (st : St) :
    stateReady (updateRemaining now st) = stateReady st := by
  obtain ⟨h1, h2, h3, h4⟩ := updateRemaining_fields now st
  unfold stateReady
  rw [h1, h2, h3, h4]

/-- A tick leaves the candidate projection unchanged. -/
theorem updateRemaining_candidate (now t : Int) (st : St) :
    candidate t (updateRemaining now st) = candidate t st := by
  obtain ⟨h1, h2, h3, _⟩ := updateRemaining_fields now st
  unfold candidate
  rw [h1, h2, h3]

/-- When the state is not ready, a tick forces the display to zero. -/
theorem updateRemaining_not_ready (now : Int) (st : St)
    (h : stateReady st = false) :
    (updateRemaining now st).remaining = 0 := by
  unfold stateReady at h
  unfold updateRemaining
  split
  · rfl
  · rename_i hcond
    simp only [Bool.or_eq_true, Bool.not_eq_true'] at hcond
    simp only [Bool.and_eq_false_iff] at h
    rcases h with (((h | h) | h) | h) <;> simp [h] at hcond

/-- When the state is ready, a tick computes exactly the source's clamp:
`max(0, min(remaining || newRemaining, newRemaining))`. -/
theorem updateRemaining_ready_eq (now : Int) (st : St)
    (h : stateReady st = true) :
    (updateRemaining now st).remaining =
      max 0 (min (if st.remaining = 0 then candidate now st else st.remaining)
        (candidate now st)) := by
  unfold stateReady at h
  simp only [Bool.and_eq_true] at h
  obtain ⟨⟨⟨h1, h2⟩, h3⟩, h4⟩ := h
  unfold updateRemaining
  rw [h1, h2, h3, h4]
  simp [candidate]

/-- The displayed value produced by a tick is never negative. -/
theorem updateRemaining_nonneg (now : Int) (st : St) :
    0 ≤ (updateRemaining now st).remaining := by
  rcases h : stateReady st with hf | ht
  · rw [updateRemaining_not_ready now st h]
  · rw [updateRemaining_ready_eq now st h]
    exact le_max_left 0 _

/-- A tick never raises a positive displayed value. -/
theorem updateRemaining_le (now : Int) (st : St) (h : 0 < st.remaining) :
    (updateRemaining now st).remaining ≤ st.remaining := by
  rcases hr : stateReady st with hf | ht
  · rw [updateRemaining_not_ready now st hr]
    exact le_of_lt h
  · rw [updateRemaining_ready_eq now st hr]
    rw [if_neg (by omega)]
    exact max_le (le_of_lt h) (min_le_left _ _)

/-- When the state is ready and a tick displays zero, the candidate at that
tick's time was already nonpositive (provided the previous displayed value
was nonnegative, which every reachable state satisfies). -/
theorem updateRemaining_zero_cand (now : Int) (st : St)
    (hready : stateReady st = true) (h0 : 0 ≤ st.remaining)
    (hz : (updateRemaining now st).remaining = 0) :
    candidate now st ≤ 0 := by
  rw [updateRemaining_ready_eq now st hready] at hz
  rcases eq_or_lt_of_le h0 with he | hlt
  · rw [if_pos he.symm] at hz
    simp at hz
    omega
  · rw [if_neg (by omega)] at hz
    simp at hz
    omega

/-- The invariant a state satisfies right after a tick evaluated at local
time `t`: the display is nonnegative, and a zero display on a ready state
means the candidate at `t` was already nonpositive. -/
def PostTick (st : St) (t : Int) : Prop :=
  0 ≤ st.remaining ∧
    (stateReady st = true → st.remaining = 0 → candidate t st ≤ 0)

/-- A tick on a state with nonnegative display establishes `PostTick` at
the tick's own time. -/
theorem postTick_of_tick (st : St) (t : Int) (h0 : 0 ≤ st.remaining) :
    PostTick (updateRemaining t st) t := by
  refine ⟨updateRemaining_nonneg t st, ?_⟩
  intro hready hz
  rw [updateRemaining_candidate t t st]
  exact updateRemaining_zero_cand t st
    (by rw [← updateRemaining_ready t st]; exact hready) h0 hz

/-- The candidate projection is antitone in local time. -/
theorem candidate_antitone (t t' : Int) (st : St) (h : t ≤ t') :
    candidate t' st ≤ candidate t st := by
  unfold candidate
  omega

/-- One tick at a later time on a `PostTick` state does not raise the
display, and re-establishes `PostTick` at the later time. -/
theorem tick_step (st : St) (t t' : Int) (h : t ≤ t') (hp : PostTick st t) :
    (updateRemaining t' st).remaining ≤ st.remaining ∧
      PostTick (updateRemaining t' st) t' := by
  obtain ⟨h0, hcand⟩ := hp
  refine ⟨?_, postTick_of_tick st t' h0⟩
  rcases eq_or_lt_of_le h0 with he | hlt
  · rcases hr : stateReady st with hf | ht
    · rw [updateRemaining_not_ready t' st hr]
      omega
    · have hc : candidate t st ≤ 0 := hcand hr he.symm
      have hc' : candidate t' st ≤ 0 :=
        le_trans (candidate_antitone t t' st h) hc
      rw [updateRemaining_ready_eq t' st hr, if_pos he.symm]
      simp
      omega
  · exact updateRemaining_le t' st hlt

/-- Along any nondecreasing list of tick times, starting from a state that
satisfies `PostTick` at time `tprev`, the successive displayed values
(including the starting one) form a nonincreasing chain. -/
theorem tickSeq_chain (ts : List Int) :
    ∀ (st : St) (tprev : Int), PostTick st tprev →
    (tprev :: ts).Chain' (· ≤ ·) →
    ((ts.scanl (fun s t => updateRemaining t s) st).map St.remaining).Chain'
      (fun a b => b ≤ a) := by
  induction ts with
  | nil =>
    intro st tprev _ _
    simp
  | cons t ts ih =>
    intro st tprev hp hch
    rw [List.chain'_cons] at hch
    obtain ⟨h1, h2⟩ := hch
    obtain ⟨hle, hpost⟩ := tick_step st tprev t h1 hp
    have ihr := ih (updateRemaining t st) t hpost h2
    rw [List.scanl_cons, List.singleton_append, List.map_cons]
    refine List.Chain'.cons' ihr ?_
    intro y hy
    cases ts with
    | nil =>
      simp [List.scanl] at hy
      omega
    | cons u us =>
      simp at hy
      omega

/-- C1.  Anti-rollback of the display value: along any sequence of
consecutive `updateRemaining` evaluations at nondecreasing local clock
times, with the rest of the state (in particular the `SyncState` triple and
`isTimestampValid`) untouched between them, the displayed `remaining` after
each evaluation is at most its value after the previous evaluation.  The
hypothesis `0 ≤ st.remaining` holds for every reachable state: `remaining`
starts at `0` and is only ever assigned `max 0 _` (`updateRemaining`) or a
previously displayed value (the `syncNow` clamp). -/
theorem anti_rollback_ticks (st : St) (ts : List Int)
    (h0 : 0 ≤ st.remaining) (hch : ts.Chain' (· ≤ ·)) :
    (((ts.scanl (fun s t => updateRemaining t s) st).map St.remaining).drop 1).Chain'
      (fun a b => b ≤ a) := by
  cases ts with
  | nil => simp
  | cons t ts =>
    rw [List.scanl_cons, List.singleton_append, List.map_cons,
      List.drop_one, List.tail_cons]
    exact tickSeq_chain ts (updateRemaining t st) t
      (postTick_of_tick st t h0) hch

/-- A concrete synchronized state used to witness `anti_rollback_ticks`. -/
def c1State : St :=
  { St.init with
    serverEndTime := some 1700000000100000,
    serverNow := some 1700000000000000,
    clientNow := some 1700000000000000,
    remaining := 60000 }

/-- Witness for C1 at a concrete state and three tick times. -/
theorem anti_rollback_ticks_witness :
    ((([(1700000000000000 : Int), 1700000000040000,
        1700000000090000].scanl (fun s t => updateRemaining t s)
          c1State).map St.remaining).drop 1).Chain' (fun a b => b ≤ a) :=
  anti_rollback_ticks c1State
    [1700000000000000, 1700000000040000, 1700000000090000]
    (by decide) (by simp [List.chain'_cons])

/-- `validateTimestamps` never writes the displayed `remaining`. -/
theorem validateTimestamps_remaining (e n : Option Int) (now : Int)
    (st : St) : (validateTimestamps e n now st).2.remaining = st.remaining := by
  unfold validateTimestamps
  dsimp only
  split_ifs <;> rfl

/-- `useCachedData` never writes the displayed `remaining`. -/
theorem useCachedData_remaining (now : Int) (st : St) :
    (useCachedData now st).2.remaining = st.remaining := by
  unfold useCachedData
  split
  · rfl
  · split <;> rfl

/-- `syncWithRetry` never writes the displayed `remaining`: installation of
a new `SyncState` (live or cached) leaves the display, and hence the tick
clamp's ceiling, untouched. -/
theorem syncWithRetry_remaining (atts : List Attempt) (st : St) :
    (syncWithRetry atts st).1.remaining = st.remaining := by
  induction atts generalizing st with
  | nil => rfl
  | cons a rest ih =>
    unfold syncWithRetry
    cases a.outcome with
    | ok e s =>
      simp only
      split
      · simp [validateTimestamps_remaining]
      · split
        · simp [useCachedData_remaining, validateTimestamps_remaining]
        · simp [useCachedData_remaining, validateTimestamps_remaining]
    | err isAbort isTimeout =>
      simp only
      split
      · rfl
      · split
        · simp [ih]
        · split
          · simp [useCachedData_remaining]
          · simp [useCachedData_remaining]

/-- The post-`syncWithRetry` tail of `syncNow`: when the sync left
`remaining` at its pre-sync value `R > 0`, the guard plus final tick end
at most at `R`. -/
theorem clamp_tick_le (st2 : St) (R tickNow : Int) (hpos : 0 < R)
    (hrem : st2.remaining = R) :
    (updateRemaining tickNow
      { (if R < st2.remaining ∧ 0 < R then { st2 with remaining := R }
         else st2) with syncing := false }).remaining ≤ R := by
  rw [if_neg (by omega)]
  have h : ({ st2 with syncing := false } : St).remaining = R := hrem
  calc (updateRemaining tickNow { st2 with syncing := false }).remaining
      ≤ ({ st2 with syncing := false } : St).remaining :=
        updateRemaining_le _ _ (by rw [h]; exact hpos)
    _ = R := h

/-- C3.  Cross-sync clamp: a `syncNow` invocation that starts with a
positive displayed `remaining = R` always completes with `remaining ≤ R`,
whatever the transport outcomes (success, retries, abort, cache fallback)
and whatever local time the final tick runs at. -/
theorem cross_sync_clamp (atts : List Attempt) (tickNow : Int) (st : St)
    (hpos : 0 < st.remaining) :
    (syncNow atts tickNow st).remaining ≤ st.remaining := by
  unfold syncNow
  split
  · exact le_refl _
  · exact clamp_tick_le _ _ tickNow hpos (syncWithRetry_remaining _ _)

/-- A concrete pre-sync state used to witness `cross_sync_clamp`. -/
def c3State : St :=
  { St.init with
    serverEndTime := some 1700000000030000,
    serverNow := some 1700000000000000,
    clientNow := some 1700000000000000,
    remaining := 30000 }

/-- A successful transport attempt that would, unclamped, allow a larger
remaining time than `c3State` displays. -/
def c3Attempt : Attempt :=
  ⟨Outcome.ok (some 1700000000100000) (some 1700000000000000),
    1700000000000000, 1700000000000000⟩

/-- Witness for C3 at a concrete state and transport outcome. -/
theorem cross_sync_clamp_witness :
    (syncNow [c3Attempt] 1700000000000000 c3State).remaining ≤
      c3State.remaining :=
  cross_sync_clamp [c3Attempt] 1700000000000000 c3State (by decide)

/-- A state displaying `remaining = 5000` with no synchronized data yet. -/
def c2PreState : St := { St.init with remaining := 5000 }

/-- A successful, validated transport attempt installing a fresh
`SyncState` whose candidate remaining at the attempt's local time is
`100000`. -/
def c2Attempt : Attempt :=
  ⟨Outcome.ok (some 1700000000100000) (some 1700000000000000),
    1700000000000000, 1700000000000000⟩

/-- The state right after the validated installation. -/
def c2Synced : St := (syncWithRetry [c2Attempt] c2PreState).1

/-- C2 counterexample.  After a new validated `SyncState` installation
(witnessed by the installed `serverEndTime`), the very first tick displays
the old `5000`, not the fresh candidate `100000`: the clamp's ceiling is
not reset to `candidateRemaining` on installation, contradicting the
claimed `max(0, min(candidateRemaining, candidateRemaining))` for the
first post-installation tick. -/
theorem tick_ceiling_not_reset_on_install :
    c2Synced.serverEndTime = some 1700000000100000 ∧
    candidate 1700000000000000 c2Synced = 100000 ∧
    (updateRemaining 1700000000000000 c2Synced).remaining = 5000 ∧
    (updateRemaining 1700000000000000 c2Synced).remaining ≠
      max 0 (min (candidate 1700000000000000 c2Synced)
        (candidate 1700000000000000 c2Synced)) := by
  refine ⟨by decide, by decide, by decide, by decide⟩

/-- C2 amended.  A tick on a ready state sets `remaining` to
`max(0, min(ceiling, candidateRemaining))` where the ceiling is the
previous displayed value when that value is nonzero and the fresh
candidate when it is zero (JavaScript `||`, not `??`); and a validated
`SyncState` installation never resets the ceiling — `syncWithRetry`
leaves `remaining` untouched — so a tick can rise above the previous
displayed value only when that value was `0`. -/
theorem tick_clamp_rule :
    (∀ (now : Int) (st : St), stateReady st = true →
      (updateRemaining now st).remaining =
        max 0 (min (if st.remaining = 0 then candidate now st
          else st.remaining) (candidate now st))) ∧
    (∀ (atts : List Attempt) (st : St),
      (syncWithRetry atts st).1.remaining = st.remaining) :=
  ⟨fun now st h => updateRemaining_ready_eq now st h,
   fun atts st => syncWithRetry_remaining atts st⟩

/-- Witness for C2 amended: the ready state of the counterexample ticks to
`max 0 (min 5000 100000) = 5000`. -/
theorem tick_clamp_rule_witness :
    (updateRemaining 1700000000000000 c2Synced).remaining =
      max 0 (min (if c2Synced.remaining = 0
        then candidate 1700000000000000 c2Synced else c2Synced.remaining)
        (candidate 1700000000000000 c2Synced)) :=
  tick_clamp_rule.1 1700000000000000 c2Synced (by decide)

/-- `normalizeTimestamp` maps nonzero inputs to nonzero outputs. -/
theorem normalizeTimestamp_ne_zero (x : Int) (h : x ≠ 0) :
    normalizeTimestamp x ≠ 0 := by
  unfold normalizeTimestamp MS_PER_SECOND
  split
  · intro hc
    omega
  · exact h

/-- A truthy nullable number is a `some` of a nonzero value. -/
theorem truthy_iff (o : Option Int) :
    truthy o = true ↔ ∃ v, o = some v ∧ v ≠ 0 := by
  cases o <;> simp [truthy]

/-- Every `serverEndTime` installed by an accepted `validateTimestamps`
call is a positive (hence truthy, hence non-null and nonzero) value. -/
theorem validate_installs_pos_end (e n : Option Int) (now : Int) (st : St)
    (h : (validateTimestamps e n now st).1 = true) :
    ∃ v, (validateTimestamps e n now st).2.serverEndTime = some v ∧ 0 < v := by
  unfold validateTimestamps at h ⊢
  dsimp only at h ⊢
  split_ifs at h ⊢ with h1 h2 h3 h4 h5
  all_goals simp_all
  all_goals
    obtain ⟨⟨⟨-, -⟩, hv⟩, -⟩ := h1
  all_goals
    unfold normalizeTimestamp MS_PER_SECOND
  all_goals
    split <;> omega

/-- Every `serverEndTime` installed by an accepted cache fallback is a
nonzero (truthy) value. -/
theorem cache_installs_ne_zero_end (now : Int) (st : St)
    (c : CachedSnapshot) (hs : st.storage = some c)
    (h : (useCachedData now st).1 = true) :
    ∃ v, (useCachedData now st).2.serverEndTime = some v ∧ v ≠ 0 := by
  unfold useCachedData at h ⊢
  rw [hs] at h ⊢
  dsimp only at h ⊢
  by_cases hcu : cacheUsable (some c) now = true
  case neg =>
    rw [if_neg hcu] at h
    exact absurd h (by simp)
  case pos =>
    rw [if_pos hcu]
    refine ⟨normalizeTimestamp (c.serverEndTime.getD 0), rfl, ?_⟩
    unfold cacheUsable at hcu
    dsimp only at hcu
    by_cases h2 : (!truthy c.serverEndTime || !truthy c.serverNow
        || !truthy c.clientNow) = true
    · rw [if_pos h2] at hcu
      exact absurd hcu (by simp)
    · have he : truthy c.serverEndTime = true := by
        revert h2
        cases truthy c.serverEndTime <;> simp
      obtain ⟨v, hv, hvne⟩ := (truthy_iff c.serverEndTime).mp he
      rw [hv, Option.getD_some]
      exact normalizeTimestamp_ne_zero v hvne

/-- C4.  Deadline-anomaly guard: when `serverEndTime` is replaced by the
watcher's reactive trigger and both the previous (`some a`) and new
(`some b`) values are non-null — all installed values are nonzero, per
`validate_installs_pos_end` and `cache_installs_ne_zero_end`, so
JavaScript truthiness coincides with non-nullness — then a rise of more
than `2000` ms is rejected (the installed value reverts to the previous
one and the anomaly notice is set), and otherwise the new value is kept
and the message is untouched. -/
theorem deadline_anomaly_guard (a b : Int) (st : St)
    (ha : a ≠ 0) (hb : b ≠ 0) (hst : st.serverEndTime = some b) :
    (a + MS_PER_SECOND * 2 < b →
      (serverEndTimeWatch (some b) (some a) st).serverEndTime = some a ∧
      (serverEndTimeWatch (some b) (some a) st).errorMessage =
        some ErrMsg.timeAnomalyCorrected) ∧
    (¬(a + MS_PER_SECOND * 2 < b) →
      (serverEndTimeWatch (some b) (some a) st).serverEndTime = some b ∧
      (serverEndTimeWatch (some b) (some a) st).errorMessage =
        st.errorMessage) := by
  constructor
  · intro hrise
    unfold serverEndTimeWatch
    rw [if_pos]
    · exact ⟨rfl, rfl⟩
    · simp [truthy, ha, hb]
      exact hrise
  · intro hnorise
    unfold serverEndTimeWatch
    rw [if_neg]
    · exact ⟨hst, rfl⟩
    · simp [truthy, ha, hb]
      omega

/-- Witness for C4: a 3000 ms deadline rise is reverted with the notice,
while a 2000 ms rise is kept. -/
theorem deadline_anomaly_guard_witness :
    ((serverEndTimeWatch (some 1700000000003000) (some 1700000000000000)
      { St.init with serverEndTime := some 1700000000003000 }).serverEndTime
        = some 1700000000000000 ∧
     (serverEndTimeWatch (some 1700000000003000) (some 1700000000000000)
      { St.init with serverEndTime := some 1700000000003000 }).errorMessage
        = some ErrMsg.timeAnomalyCorrected) ∧
    ((serverEndTimeWatch (some 1700000000002000) (some 1700000000000000)
      { St.init with serverEndTime := some 1700000000002000 }).serverEndTime
        = some 1700000000002000) :=
  ⟨(deadline_anomaly_guard 1700000000000000 1700000000003000
      { St.init with serverEndTime := some 1700000000003000 }
      (by decide) (by decide) rfl).1 (by decide),
   ((deadline_anomaly_guard 1700000000000000 1700000000002000
      { St.init with serverEndTime := some 1700000000002000 }
      (by decide) (by decide) rfl).2 (by decide)).1⟩

/-- A cached snapshot whose deadline lies two years past its (projected)
current server time: fresh (`syncedAt = clientNow = now`), all fields
truthy. -/
def c5Cache : CachedSnapshot :=
  ⟨some 1763072000000000, some 1700000000000000, some 1700000000000000,
    1700000000000000⟩

/-- A state holding `c5Cache` as its persisted snapshot. -/
def c5State : St := { St.init with storage := some c5Cache }

/-- C5 counterexample.  The cache-fallback path accepts and installs the
two-years-in-the-future pair of `c5Cache` (with `clientNow = now` the
projected pair equals the stored pair), while `validateTimestamps` on that
very pair rejects it (365-day future bound): the acceptance predicates of
`useCachedData` and `validateTimestamps` are not equivalent, so cached
candidates do not pass through the validator's rules. -/
theorem cache_not_validator_equivalent :
    (useCachedData 1700000000000000 c5State).1 = true ∧
    (useCachedData 1700000000000000 c5State).2.serverEndTime =
      some 1763072000000000 ∧
    (validateTimestamps (some 1763072000000000) (some 1700000000000000)
      1700000000000000 St.init).1 = false := by
  refine ⟨by decide, by decide, by decide⟩

/-- C5 amended.  The cache-fallback path does not route cached candidates
through `validateTimestamps`: of the validator's sanity rules it applies
only the 5-minute expiry-deviation rule (to the cache-projected pair) —
whenever `useCachedData` accepts, the projected pair satisfies the
validator's deviation bound — while the 365-day future bound and the
positivity checks are not applied to cached data, so cache acceptance is
strictly weaker than validator acceptance. -/
theorem cache_shares_deviation_rule (now : Int) (st : St)
    (c : CachedSnapshot) (hs : st.storage = some c)
    (h : (useCachedData now st).1 = true) :
    -MAX_TIMESTAMP_DEVIATION ≤
      normalizeTimestamp (c.serverEndTime.getD 0) -
        (normalizeTimestamp (c.serverNow.getD 0) + (now - c.clientNow.getD 0)) := by
  unfold useCachedData at h
  rw [hs] at h
  dsimp only at h
  by_cases hcu : cacheUsable (some c) now = true
  case neg =>
    rw [if_neg hcu] at h
    exact absurd h (by simp)
  case pos =>
    unfold cacheUsable at hcu
    dsimp only at hcu
    by_cases h2 : (!truthy c.serverEndTime || !truthy c.serverNow
        || !truthy c.clientNow) = true
    · rw [if_pos h2] at hcu
      exact absurd hcu (by simp)
    · rw [if_neg h2] at hcu
      by_cases h3 : now - c.syncedAt ≥ MAX_CACHE_AGE
      · rw [if_pos h3] at hcu
        exact absurd hcu (by simp)
      · rw [if_neg h3] at hcu
        exact of_decide_eq_true hcu

/-- Witness for C5 amended, at the concrete accepted snapshot `c5Cache`. -/
theorem cache_shares_deviation_rule_witness :
    -MAX_TIMESTAMP_DEVIATION ≤
      normalizeTimestamp (c5Cache.serverEndTime.getD 0) -
        (normalizeTimestamp (c5Cache.serverNow.getD 0) +
          (1700000000000000 - c5Cache.clientNow.getD 0)) :=
  cache_shares_deviation_rule 1700000000000000 c5State c5Cache rfl (by decide)

/-- C6.  Latency compensation: on an accepted validation with a recorded
(truthy) request-send time `t0`, with `requestDelay = now - t0`: when the
delay exceeds `REQUEST_DELAY_TOLERANCE` (2000 ms) the installed
`serverNow` is the normalized raw value shifted by the delay, otherwise it
is the normalized raw value unshifted; in both cases the installed
`serverEndTime` is the normalized raw deadline, never shifted. -/
theorem latency_compensation (a b t0 now : Int) (st : St)
    (hsend : st.requestSendTime = some t0) (ht0 : t0 ≠ 0)
    (hacc : (validateTimestamps (some a) (some b) now st).1 = true) :
    (REQUEST_DELAY_TOLERANCE < now - t0 →
      (validateTimestamps (some a) (some b) now st).2.serverNow =
        some (normalizeTimestamp b + (now - t0))) ∧
    (¬REQUEST_DELAY_TOLERANCE < now - t0 →
      (validateTimestamps (some a) (some b) now st).2.serverNow =
        some (normalizeTimestamp b)) ∧
    (validateTimestamps (some a) (some b) now st).2.serverEndTime =
      some (normalizeTimestamp a) := by
  unfold validateTimestamps at hacc ⊢
  dsimp only at hacc ⊢
  rw [hsend] at hacc ⊢
  have htr : truthy (some t0) = true := by simp [truthy, ht0]
  split_ifs at hacc ⊢ with h1 h2 h3 h4 <;>
    refine ⟨fun hd => ?_, fun hd => ?_, ?_⟩ <;>
    (simp_all [REQUEST_DELAY_TOLERANCE]; try omega)

/-- Witness for C6: a 5000 ms round trip (`> 2000`) shifts the installed
`serverNow` by exactly 5000 ms and leaves the deadline unshifted. -/
theorem latency_compensation_witness :
    (validateTimestamps (some 1700000000100000) (some 1700000000000000)
      1700000000005000
      { St.init with requestSendTime := some 1700000000000000 }).2.serverNow =
      some (normalizeTimestamp 1700000000000000 +
        (1700000000005000 - 1700000000000000)) ∧
    (validateTimestamps (some 1700000000100000) (some 1700000000000000)
      1700000000005000
      { St.init with requestSendTime := some 1700000000000000 }).2.serverEndTime =
      some (normalizeTimestamp 1700000000100000) :=
  ⟨(latency_compensation 1700000000100000 1700000000000000
      1700000000000000 1700000000005000
      { St.init with requestSendTime := some 1700000000000000 }
      rfl (by decide) (by decide)).1 (by decide),
   (latency_compensation 1700000000100000 1700000000000000
      1700000000000000 1700000000005000
      { St.init with requestSendTime := some 1700000000000000 }
      rfl (by decide) (by decide)).2.2⟩

/-- C7.  Rejection conditions of `validateTimestamps`: the call returns
invalid exactly when an input is missing (`none`) or nonpositive, or the
normalized pair is expired beyond 5 minutes, or more than 365 days in the
future; and every invalid return sets an error message.  (`NaN` has no
`Int` representative, so the `Number.isNaN` guards are vacuous here; the
`getD 1` defaults are irrelevant — they are only reached under the `none`
disjuncts.) -/
theorem validate_rejection_iff (e n : Option Int) (now : Int) (st : St) :
    ((validateTimestamps e n now st).1 = false ↔
      (e = none ∨ n = none ∨ e.getD 1 ≤ 0 ∨ n.getD 1 ≤ 0 ∨
        MAX_TIMESTAMP_DEVIATION <
          normalizeTimestamp (n.getD 1) - normalizeTimestamp (e.getD 1) ∨
        MAX_FUTURE_TIME <
          normalizeTimestamp (e.getD 1) - normalizeTimestamp (n.getD 1))) ∧
    ((validateTimestamps e n now st).1 = false →
      ((validateTimestamps e n now st).2.errorMessage).isSome = true) := by
  rcases e with _ | a <;> rcases n with _ | b
  all_goals
    unfold validateTimestamps
  all_goals
    dsimp only
  all_goals
    simp only [truthy]
  · simp
  · simp
  · simp
  · by_cases ha : a = 0
    · subst ha
      simp
    · by_cases hb : b = 0
      · subst hb
        simp
      · have hane : (a != 0) = true := by simp [ha]
        have hbne : (b != 0) = true := by simp [hb]
        simp only [hane, hbne, Bool.not_true, Bool.false_or, Option.getD_some]
        split_ifs with h1 h2 h3 h5 <;> simp_all <;> omega

/-- Witness for C7: an expired-beyond-tolerance pair is rejected with a
message set, and a sane pair is accepted. -/
theorem validate_rejection_iff_witness :
    ((validateTimestamps (some 1700000000000000) (some 1700000000400000)
      1700000000400000 St.init).1 = false ∧
     ((validateTimestamps (some 1700000000000000) (some 1700000000400000)
      1700000000400000 St.init).2.errorMessage).isSome = true) ∧
    (validateTimestamps (some 1700000000100000) (some 1700000000000000)
      1700000000000000 St.init).1 = true := by
  have h := validate_rejection_iff (some 1700000000000000)
    (some 1700000000400000) 1700000000400000 St.init
  have h2 := validate_rejection_iff (some 1700000000100000)
    (some 1700000000000000) 1700000000000000 St.init
  have hrej : (validateTimestamps (some 1700000000000000)
      (some 1700000000400000) 1700000000400000 St.init).1 = false :=
    h.1.mpr (by decide)
  refine ⟨⟨hrej, h.2 hrej⟩, ?_⟩
  have := h2.1
  rcases hv : (validateTimestamps (some 1700000000100000)
      (some 1700000000000000) 1700000000000000 St.init).1 with _ | _
  · exact absurd (this.mp hv) (by decide)
  · rfl

end CountdownSync

namespace CountdownSync

/-- C8 counterexample.  Unit-normalization is not idempotent on every
representable number: `normalize(5) = 5000` (seconds branch) but
`normalize(normalize(5)) = 5000000`, since `5000` is again below the
`1e12` threshold and gets multiplied a second time. -/
theorem normalize_not_idempotent :
    normalizeTimestamp (normalizeTimestamp 5) ≠ normalizeTimestamp 5 := by
  decide

/-- C8 amended.  `normalize(normalize(x)) = normalize(x)` holds exactly
when `x = 0` or `x ≥ 1e9` (so that the seconds branch, if taken, lands at
or above the `1e12` threshold); it fails for every other representable
number — in particular for small positive inputs such as `5`. -/
theorem normalize_idempotent_iff (x : Int) :
    normalizeTimestamp (normalizeTimestamp x) = normalizeTimestamp x ↔
      x = 0 ∨ 1000000000 ≤ x := by
  unfold normalizeTimestamp SECOND_TIMESTAMP_THRESHOLD MS_PER_SECOND
  split_ifs <;> omega

/-- C10.  Atomicity of validation on rejection: a rejected
`validateTimestamps` call leaves `serverEndTime`, `serverNow` and
`clientNow` untouched — the whole state equals the input state with only
`errorMessage` replaced; no partial installation occurs. -/
theorem validate_rejection_atomic (e n : Option Int) (now : Int) (st : St)
    (h : (validateTimestamps e n now st).1 = false) :
    (validateTimestamps e n now st).2.serverEndTime = st.serverEndTime ∧
    (validateTimestamps e n now st).2.serverNow = st.serverNow ∧
    (validateTimestamps e n now st).2.clientNow = st.clientNow ∧
    (validateTimestamps e n now st).2 =
      { st with errorMessage := (validateTimestamps e n now st).2.errorMessage } := by
  unfold validateTimestamps at h ⊢
  dsimp only at h ⊢
  split_ifs at h ⊢ <;> simp_all

/-- Witness for C10 at a rejected (expired-beyond-tolerance) input. -/
theorem validate_rejection_atomic_witness :
    (validateTimestamps (some 1700000000000000) (some 1700000000400000)
      1700000000400000 c1State).2.serverEndTime = c1State.serverEndTime ∧
    (validateTimestamps (some 1700000000000000) (some 1700000000400000)
      1700000000400000 c1State).2.serverNow = c1State.serverNow ∧
    (validateTimestamps (some 1700000000000000) (some 1700000000400000)
      1700000000400000 c1State).2.clientNow = c1State.clientNow ∧
    (validateTimestamps (some 1700000000000000) (some 1700000000400000)
      1700000000400000 c1State).2 =
      { c1State with errorMessage :=
        (validateTimestamps (some 1700000000000000) (some 1700000000400000)
          1700000000400000 c1State).2.errorMessage } :=
  validate_rejection_atomic (some 1700000000000000) (some 1700000000400000)
    1700000000400000 c1State (by decide)

/-- When the acceptance predicate fails, `useCachedData` is a no-op
returning `false`. -/
theorem useCachedData_not_usable (now : Int) (st : St)
    (h : cacheUsable st.storage now = false) :
    useCachedData now st = (false, st) := by
  unfold useCachedData
  rcases hs : st.storage with _ | c
  · rfl
  · rw [hs] at h
    dsimp only
    rw [if_neg]
    exact fun hc => absurd (h.symm.trans hc) Bool.false_ne_true

end CountdownSync

namespace CountdownSync

/-- C9.  Retry exhaustion: four consecutive retryable (non-abort)
transport failures starting from `retryCount = 0`, with an unusable cache
at the final fallback, terminate with `isTimestampValid = false` and
`retryCount = 0`; exactly `4 = 1 + MAX_RETRIES` transport attempts are
made, i.e. at most `MAX_RETRIES = 3` retries after the initial failure. -/
theorem retry_exhaustion (tm1 tm2 tm3 tm4 : Bool)
    (s1 r1 s2 r2 s3 r3 s4 r4 : Int) (st : St)
    (hrc : st.retryCount = 0)
    (hcache : cacheUsable st.storage r4 = false) :
    (syncWithRetry
      [⟨Outcome.err false tm1, s1, r1⟩, ⟨Outcome.err false tm2, s2, r2⟩,
       ⟨Outcome.err false tm3, s3, r3⟩, ⟨Outcome.err false tm4, s4, r4⟩]
      st).1.isTimestampValid = false ∧
    (syncWithRetry
      [⟨Outcome.err false tm1, s1, r1⟩, ⟨Outcome.err false tm2, s2, r2⟩,
       ⟨Outcome.err false tm3, s3, r3⟩, ⟨Outcome.err false tm4, s4, r4⟩]
      st).1.retryCount = 0 ∧
    (syncWithRetry
      [⟨Outcome.err false tm1, s1, r1⟩, ⟨Outcome.err false tm2, s2, r2⟩,
       ⟨Outcome.err false tm3, s3, r3⟩, ⟨Outcome.err false tm4, s4, r4⟩]
      st).2 = 4 := by
  simp only [syncWithRetry, hrc]
  norm_num [MAX_RETRIES, useCachedData_not_usable, hcache]

/-- Witness for C9: four concrete network errors on the initial state. -/
theorem retry_exhaustion_witness :
    (syncWithRetry
      [⟨Outcome.err false false, 10, 20⟩, ⟨Outcome.err false false, 30, 40⟩,
       ⟨Outcome.err false true, 50, 60⟩, ⟨Outcome.err false false, 70, 80⟩]
      St.init).1.isTimestampValid = false ∧
    (syncWithRetry
      [⟨Outcome.err false false, 10, 20⟩, ⟨Outcome.err false false, 30, 40⟩,
       ⟨Outcome.err false true, 50, 60⟩, ⟨Outcome.err false false, 70, 80⟩]
      St.init).1.retryCount = 0 ∧
    (syncWithRetry
      [⟨Outcome.err false false, 10, 20⟩, ⟨Outcome.err false false, 30, 40⟩,
       ⟨Outcome.err false true, 50, 60⟩, ⟨Outcome.err false false, 70, 80⟩]
      St.init).2 = 4 :=
  retry_exhaustion false false true false 10 20 30 40 50 60 70 80 St.init
    rfl (by decide)

end CountdownSync
